import Mathlib

/-!
Verification of the pdf2xls client against its specification.

The definitions below are a shallow embedding of the JavaScript source:
  - services/api.js        → namespace Api (axios wrappers, error handling, URLs)
  - components/ProgressTracker.js (both files in it: the tracker and App)
                           → namespace Tracker / namespace App
  - components/ConversionControls.js → namespace Controls
  - components/FileUploader.js       → namespace Uploader
  - i18n.js                → namespace I18n (document direction updates)
  - translations/en.js     → tEn (the English translation table)

JavaScript strings are Lean String, JS truthiness of a string is modelled
by non-emptiness, absent values by Option, and a function that may throw
by Except.
-/

namespace PdfToXls

/-- JavaScript falsy-or for strings: `a || b` yields `b` when `a` is the
empty string (falsy), else `a`. -/
def jsOr (a b : String) : String :=
  if a.isEmpty then b else a

/-- JavaScript falsy-or where the left operand may be absent (undefined). -/
def jsOrOpt (a : Option String) (b : String) : String :=
  match a with
  | some s => jsOr s b
  | none => b

/-- Translation table of translations/en.js, restricted to the keys the
embedded components look up (flattened dotted keys, as i18next sees them).
Keys absent from en.js (such as "error.fileSize") are absent here too. -/
def enTable : List (String × String) :=
  [ ("conversion.status.pending", "Pending"),
    ("conversion.status.processing", "Processing"),
    ("conversion.status.paused", "Paused"),
    ("conversion.status.completed", "Completed"),
    ("conversion.status.error", "Error"),
    ("progress.analysis", "Analyzing PDF structure..."),
    ("progress.title", "Conversion Progress"),
    ("progress.completed", "Complete"),
    ("error.generic", "An error occurred"),
    ("error.retry", "Retry"),
    ("conversion.cancel", "Cancel"),
    ("conversion.pause", "Pause"),
    ("conversion.resume", "Resume"),
    ("conversion.start", "Start Conversion"),
    ("conversion.csv", "CSV"),
    ("conversion.excel", "Excel") ]

/-- The i18next translation function for English: look the key up in the
resource table; a missing key falls back to the key itself (i18next default
behaviour when no fallback resource provides it). -/
def tEn (key : String) : String :=
  match enTable.lookup key with
  | some v => v
  | none => key

end PdfToXls

namespace PdfToXls.Api

/-- Shape of an axios failure as handleApiError in services/api.js
distinguishes it: a server response carrying an optional detail string and
an HTTP status, a request that got no response, or an error raised while
setting the request up (carrying its message). -/
inductive AxiosError where
  | response (detail : Option String) (httpStatus : Nat)
  | request
  | setup (message : String)
deriving Repr, DecidableEq

/-- A thrown JavaScript Error, reduced to its message. -/
structure JsError where
  message : String
deriving Repr, DecidableEq

/-- handleApiError of services/api.js: it throws in every branch. For a
server response it throws new Error(error.response.data.detail ||
an error occurred message); with no response it throws a fixed connection
message; otherwise it rethrows the original error. The thrown value is
returned here. -/
def handleApiError : AxiosError → JsError
  | .response detail _ => ⟨jsOrOpt detail "An error occurred"⟩
  | .request => ⟨"No response from server. Please check your connection."⟩
  | .setup message => ⟨message⟩

/-- Common shape of every async wrapper in services/api.js: try the
request, return response.data on success, and on failure let
handleApiError throw. The axios outcome is the argument. -/
def apiRequest {α : Type} (result : Except AxiosError α) : Except JsError α :=
  match result with
  | .ok data => .ok data
  | .error e => .error (handleApiError e)

/-- uploadFile of services/api.js, as a function of its axios outcome. -/
def uploadFile {α : Type} (r : Except AxiosError α) : Except JsError α :=
  apiRequest r

/-- startConversion of services/api.js, as a function of its axios outcome. -/
def startConversion {α : Type} (r : Except AxiosError α) : Except JsError α :=
  apiRequest r

/-- pauseConversion of services/api.js, as a function of its axios outcome. -/
def pauseConversion {α : Type} (r : Except AxiosError α) : Except JsError α :=
  apiRequest r

/-- resumeConversion of services/api.js, as a function of its axios outcome. -/
def resumeConversion {α : Type} (r : Except AxiosError α) : Except JsError α :=
  apiRequest r

/-- cancelConversion of services/api.js, as a function of its axios outcome. -/
def cancelConversion {α : Type} (r : Except AxiosError α) : Except JsError α :=
  apiRequest r

/-- getSessionProgress of services/api.js, as a function of its axios outcome. -/
def getSessionProgress {α : Type} (r : Except AxiosError α) : Except JsError α :=
  apiRequest r

/-- getPreviewData of services/api.js, as a function of its axios outcome. -/
def getPreviewData {α : Type} (r : Except AxiosError α) : Except JsError α :=
  apiRequest r

/-- resetPreviewData of services/api.js, as a function of its axios outcome. -/
def resetPreviewData {α : Type} (r : Except AxiosError α) : Except JsError α :=
  apiRequest r

/-- API_BASE_URL of services/api.js: the REACT_APP_API_URL environment
variable when set and non-empty, else the localhost default. -/
def apiBaseUrl (envApiUrl : Option String) : String :=
  jsOrOpt envApiUrl "http://localhost:8003"

/-- getDownloadUrl of services/api.js. It takes only the session id. -/
def getDownloadUrl (envApiUrl : Option String) (sessionId : String) : String :=
  apiBaseUrl envApiUrl ++ "/download/" ++ sessionId

end PdfToXls.Api

namespace PdfToXls.Tracker

/-- The configuration getStatusConfig of ProgressTracker.js returns: an
icon name, a Chip color, and a label. -/
structure StatusConfig where
  icon : String
  color : String
  label : String
deriving Repr, DecidableEq

/-- getStatusConfig of ProgressTracker.js: a switch over the status string
with cases for "pending", "processing", "paused", "completed", "error" and
"analysis"; every other status takes the default branch, whose label is
the raw status string itself. The translation function is a parameter. -/
def getStatusConfig (t : String → String) (status : String) : StatusConfig :=
  match status with
  | "pending" => ⟨"HourglassEmpty", "default", t "conversion.status.pending"⟩
  | "processing" => ⟨"PlayArrow", "primary", t "conversion.status.processing"⟩
  | "paused" => ⟨"Pause", "secondary", t "conversion.status.paused"⟩
  | "completed" => ⟨"CheckCircle", "success", t "conversion.status.completed"⟩
  | "error" => ⟨"ErrorIcon", "error", t "conversion.status.error"⟩
  | "analysis" => ⟨"Analytics", "info", t "progress.analysis"⟩
  | other => ⟨"HourglassEmpty", "default", other⟩

/-- The value the default branch of getStatusConfig produces for a given
status: the hourglass icon, the default color, and the raw status string
as the displayed label. -/
def defaultStatusConfig (status : String) : StatusConfig :=
  ⟨"HourglassEmpty", "default", status⟩

end PdfToXls.Tracker

namespace PdfToXls.App

/-- The slice of App state (the second file of ProgressTracker.js) that the
progress polling touches: status, progress, the polling flag and the error
banner text. Progress is an integer percentage as reported by the server. -/
structure AppState where
  status : String
  progress : Int
  polling : Bool
  error : Option String
deriving Repr, DecidableEq

/-- One progress snapshot returned by getSessionProgress. -/
structure ProgressResponse where
  status : String
  progress : Int
  error : Option String
deriving Repr, DecidableEq

/-- One tick of the 1-second polling interval in the App useEffect: store
the reported status and progress, and stop polling only when the reported
status is "completed" or "error" (in that case also surface a reported
error message). Any other status, "cancelled" included, leaves the polling
flag as it was. -/
def pollTick (st : AppState) (r : ProgressResponse) : AppState :=
  let st1 : AppState := { st with status := r.status, progress := r.progress }
  if r.status = "completed" ∨ r.status = "error" then
    { st1 with
      polling := false,
      error := match r.error with
        | some e => some e
        | none => st1.error }
  else st1

/-- handleStatusChange of App: store the new status; stop polling when it
is "completed" or "error", and (re)start polling otherwise. -/
def handleStatusChange (st : AppState) (newStatus : String) : AppState :=
  let st1 : AppState := { st with status := newStatus }
  if newStatus = "completed" ∨ newStatus = "error" then
    { st1 with polling := false }
  else
    { st1 with polling := true }

/-- Which of the main blocks the App render emits: with no session only
the FileUploader; with a session the tracker and the controls, and the
download block exactly under the guard status === "completed". -/
structure AppView where
  fileUploader : Bool
  progressTracker : Bool
  conversionControls : Bool
  downloadBlock : Bool
deriving Repr, DecidableEq

/-- The render of App as a function of whether a session exists and of the
session status. -/
def appView (hasSession : Bool) (status : String) : AppView :=
  if hasSession then
    { fileUploader := false
      progressTracker := true
      conversionControls := true
      downloadBlock := status == "completed" }
  else
    { fileUploader := true
      progressTracker := false
      conversionControls := false
      downloadBlock := false }

/-- handleDownload of App: it builds the URL by calling getDownloadUrl
with the session id and the selected format; getDownloadUrl declares a
single parameter, so the second argument is dropped at the call. -/
def handleDownloadUrl (envApiUrl : Option String) (sessionId : String)
    (selectedFormat : String) : String :=
  Api.getDownloadUrl envApiUrl sessionId

end PdfToXls.App

namespace PdfToXls.Controls

/-- Which interactive pieces ConversionControls.js renders for a given
status: the output-format radio group and the four action buttons. -/
structure ControlsView where
  formatSelector : Bool
  startButton : Bool
  pauseButton : Bool
  resumeButton : Bool
  cancelButton : Bool
deriving Repr, DecidableEq

/-- The render of ConversionControls as a function of the status prop,
using the status flags computed at the top of the component: the format
selector and the start button render when isPending, pause when
isProcessing, resume when isPaused, and cancel when isProcessing or
isPaused. -/
def conversionControlsView (status : String) : ControlsView :=
  let isProcessing := status == "processing"
  let isPaused := status == "paused"
  let isPending := status == "pending"
  { formatSelector := isPending
    startButton := isPending
    pauseButton := isProcessing
    resumeButton := isPaused
    cancelButton := isProcessing || isPaused }

end PdfToXls.Controls

namespace PdfToXls.Uploader

/-- The slice of FileUploader state the rejection handler touches. -/
structure UploaderState where
  uploading : Bool
  uploadError : Option String
  uploadSuccess : Bool
deriving Repr, DecidableEq

/-- The error message onDropRejected in FileUploader.js chooses from the
code of the first rejection error (none when the rejection list or its
error list is empty): the file-size key for "file-too-large", the
invalid-file key for "file-invalid-type", and the generic key otherwise. -/
def rejectionMessage (t : String → String) (code : Option String) : String :=
  if code = some "file-too-large" then t "error.fileSize"
  else if code = some "file-invalid-type" then t "error.invalidFile"
  else t "error.generic"

/-- onDropRejected of FileUploader.js: every branch calls setUploadError
with a translated message. -/
def onDropRejected (t : String → String) (st : UploaderState)
    (code : Option String) : UploaderState :=
  { st with uploadError := some (rejectionMessage t code) }

/-- Whether the error Alert of FileUploader renders: the JSX guard is
uploadError && ..., so it renders exactly when uploadError is a truthy
(non-empty) string. -/
def errorAlertRendered (st : UploaderState) : Bool :=
  match st.uploadError with
  | some m => !m.isEmpty
  | none => false

end PdfToXls.Uploader

namespace PdfToXls.I18n

/-- The two attributes of document.documentElement that i18n.js writes. -/
structure DocumentElement where
  dir : String
  lang : String
deriving Repr, DecidableEq

/-- updateDocumentDirection of i18n.js: dir becomes "rtl" for "he" and
"ltr" for every other language; lang becomes the language itself. -/
def updateDocumentDirection (doc : DocumentElement) (lng : String) :
    DocumentElement :=
  { doc with
    dir := if lng = "he" then "rtl" else "ltr"
    lang := lng }

/-- The module state after i18n.js runs: the active i18next language
(initialized to "en" by the init options) and the document element after
the initial updateDocumentDirection(i18n.language || "en") call. -/
def initState (doc0 : DocumentElement) : String × DocumentElement :=
  ("en", updateDocumentDirection doc0 (jsOr "en" "en"))

/-- One languageChanged event: the active language becomes the new one and
the registered listener calls updateDocumentDirection with it. -/
def applyLanguageChange (st : String × DocumentElement) (lng : String) :
    String × DocumentElement :=
  (lng, updateDocumentDirection st.2 lng)

/-- The module state after initialization followed by a sequence of
languageChanged events. -/
def runI18n (doc0 : DocumentElement) (changes : List String) :
    String × DocumentElement :=
  changes.foldl applyLanguageChange (initState doc0)

end PdfToXls.I18n

namespace PdfToXls.Server

/-- Modelled from the spec: the backend Session snapshot (the server code
is not part of the repository sources; only the client is). Fields follow
the Session data model of the spec: status, progress, page counters. -/
structure Session where
  status : String
  progress : Int
  currentPage : Nat
  totalPageCount : Nat
deriving Repr, DecidableEq

/-- Modelled from the spec: the result of a control operation — either the
updated session or an explicit failure, InvalidState when the current
status does not permit the transition, NotFound for an unknown id. -/
inductive ControlError where
  | invalidState
  | notFound
deriving Repr, DecidableEq

/-- Modelled from the spec: the backend pause operation of the Session
Controller (server code missing from the sources). The only pause
transition the state machine permits is processing → paused; in any other
status the request fails with InvalidState and, per the error-handling
design, performs no session mutation. The pair returned is the session
record after the request and the response to the caller. -/
def pauseRequest (s : Session) : Session × Except ControlError Session :=
  if s.status = "processing" then
    let s1 : Session := { s with status := "paused" }
    (s1, .ok s1)
  else
    (s, .error .invalidState)

end PdfToXls.Server

namespace PdfToXls.I18n

/-- The invariant C10 asserts of the document element: dir is "rtl" exactly
for the active language "he", and lang mirrors the active language. -/
def docInvariant (st : String × DocumentElement) : Prop :=
  (st.2.dir = "rtl" ↔ st.1 = "he") ∧ st.2.lang = st.1

end PdfToXls.I18n

namespace PdfToXls

lemma i18n_invariant_update (doc : I18n.DocumentElement) (lng : String) :
    I18n.docInvariant (lng, I18n.updateDocumentDirection doc lng) := by
  unfold I18n.docInvariant I18n.updateDocumentDirection
  refine ⟨?_, rfl⟩
  by_cases h : lng = "he"
  · simp [h]
  · simp [h]

lemma i18n_invariant_foldl (changes : List String)
    (st : String × I18n.DocumentElement) (h : I18n.docInvariant st) :
    I18n.docInvariant (changes.foldl I18n.applyLanguageChange st) := by
  induction changes generalizing st with
  | nil => exact h
  | cons c cs ih =>
    exact ih (I18n.applyLanguageChange st c) (i18n_invariant_update st.2 c)

/-- C1 counterexample: a polled snapshot with status "cancelled" does not
stop the polling loop — pollTick leaves the polling flag true, and
handleStatusChange with "cancelled" even sets it to true. -/
theorem c1_cancelled_keeps_polling :
    (App.pollTick ⟨"processing", 40, true, none⟩
      ⟨"cancelled", 40, none⟩).polling = true ∧
    (App.handleStatusChange ⟨"processing", 40, true, none⟩
      "cancelled").polling = true := by
  constructor <;> rfl

/-- C1 amended: the App stops the polling loop exactly on the statuses
"completed" and "error"; any other reported status ("cancelled" included)
leaves polling running — pollTick keeps the previous flag and
handleStatusChange sets it to true. -/
theorem c1_polling_stops_exactly_on_completed_or_error
    (st : App.AppState) (r : App.ProgressResponse) (ns : String) :
    (App.pollTick st r).polling =
      (if r.status = "completed" ∨ r.status = "error" then false
       else st.polling) ∧
    (App.handleStatusChange st ns).polling =
      (if ns = "completed" ∨ ns = "error" then false else true) := by
  constructor
  · unfold App.pollTick
    split <;> rfl
  · unfold App.handleStatusChange
    split <;> rfl

/-- C2 counterexample: the spec statuses "analyzing" and "cancelled" fall
through to the default branch of getStatusConfig, which displays the raw
status string as the label instead of a status-specific configuration. -/
theorem c2_analyzing_and_cancelled_hit_default :
    Tracker.getStatusConfig tEn "analyzing" =
      Tracker.defaultStatusConfig "analyzing" ∧
    Tracker.getStatusConfig tEn "cancelled" =
      Tracker.defaultStatusConfig "cancelled" ∧
    (Tracker.getStatusConfig tEn "cancelled").label = "cancelled" :=
  ⟨rfl, rfl, rfl⟩

/-- C2 amended: getStatusConfig returns a status-specific configuration
(dedicated icon, color and translated label) for "pending", "processing",
"paused", "completed" and "error" (and for the code status "analysis"),
but the spec statuses "analyzing" and "cancelled" take the default branch
whose label is the raw status string. -/
theorem c2_status_config_branches (t : String → String) :
    Tracker.getStatusConfig t "pending" =
      ⟨"HourglassEmpty", "default", t "conversion.status.pending"⟩ ∧
    Tracker.getStatusConfig t "processing" =
      ⟨"PlayArrow", "primary", t "conversion.status.processing"⟩ ∧
    Tracker.getStatusConfig t "paused" =
      ⟨"Pause", "secondary", t "conversion.status.paused"⟩ ∧
    Tracker.getStatusConfig t "completed" =
      ⟨"CheckCircle", "success", t "conversion.status.completed"⟩ ∧
    Tracker.getStatusConfig t "error" =
      ⟨"ErrorIcon", "error", t "conversion.status.error"⟩ ∧
    Tracker.getStatusConfig t "analysis" =
      ⟨"Analytics", "info", t "progress.analysis"⟩ ∧
    Tracker.getStatusConfig t "analyzing" =
      Tracker.defaultStatusConfig "analyzing" ∧
    Tracker.getStatusConfig t "cancelled" =
      Tracker.defaultStatusConfig "cancelled" :=
  ⟨rfl, rfl, rfl, rfl, rfl, rfl, rfl, rfl⟩

/-- C3 counterexample: in status "pending" ConversionControls does not
render the cancel button, although the spec permits the
pending → cancelled transition. -/
theorem c3_no_cancel_when_pending :
    (Controls.conversionControlsView "pending").cancelButton = false :=
  rfl

/-- C3 amended: ConversionControls offers the cancel action exactly when
the status is "processing" or "paused"; in particular not in "pending". -/
theorem c3_cancel_iff_processing_or_paused (status : String) :
    (Controls.conversionControlsView status).cancelButton = true ↔
      (status = "processing" ∨ status = "paused") := by
  unfold Controls.conversionControlsView
  simp only [Bool.or_eq_true, beq_iff_eq]

/-- C4: once the status is no longer "pending", ConversionControls never
renders the output-format selector, so the format can no longer be changed
through it. -/
theorem c4_format_selector_only_pending (status : String)
    (h : status ≠ "pending") :
    (Controls.conversionControlsView status).formatSelector = false := by
  unfold Controls.conversionControlsView
  exact beq_eq_false_iff_ne.mpr h

theorem c4_format_selector_only_pending_witness :
    ("processing" : String) ≠ "pending" ∧
    (Controls.conversionControlsView "processing").formatSelector = false :=
  ⟨by decide, c4_format_selector_only_pending "processing" (by decide)⟩

/-- C5: the App render emits the download block (the only path to the
download URL) only when the status is "completed"; for any other status,
with or without a session, no download control is rendered. -/
theorem c5_download_only_when_completed (hasSession : Bool) (status : String)
    (h : status ≠ "completed") :
    (App.appView hasSession status).downloadBlock = false := by
  cases hasSession with
  | false => rfl
  | true =>
    unfold App.appView
    simp only [if_true]
    exact beq_eq_false_iff_ne.mpr h

theorem c5_download_only_when_completed_witness :
    ("processing" : String) ≠ "completed" ∧
    (App.appView true "processing").downloadBlock = false :=
  ⟨by decide, c5_download_only_when_completed true "processing" (by decide)⟩

/-- C6: every async API wrapper either resolves with the response data or
throws the error handleApiError builds (server detail message, no-response
message, or the original setup error); none resolves with no value on a
failed request. -/
theorem c6_api_ops_return_data_or_throw (α : Type)
    (r : Except Api.AxiosError α) :
    (∃ d, r = .ok d ∧
      Api.uploadFile r = .ok d ∧ Api.startConversion r = .ok d ∧
      Api.pauseConversion r = .ok d ∧ Api.resumeConversion r = .ok d ∧
      Api.cancelConversion r = .ok d ∧ Api.getSessionProgress r = .ok d ∧
      Api.getPreviewData r = .ok d ∧ Api.resetPreviewData r = .ok d) ∨
    (∃ e, r = .error e ∧
      Api.uploadFile r = .error (Api.handleApiError e) ∧
      Api.startConversion r = .error (Api.handleApiError e) ∧
      Api.pauseConversion r = .error (Api.handleApiError e) ∧
      Api.resumeConversion r = .error (Api.handleApiError e) ∧
      Api.cancelConversion r = .error (Api.handleApiError e) ∧
      Api.getSessionProgress r = .error (Api.handleApiError e) ∧
      Api.getPreviewData r = .error (Api.handleApiError e) ∧
      Api.resetPreviewData r = .error (Api.handleApiError e)) := by
  cases r with
  | ok d => exact Or.inl ⟨d, rfl, rfl, rfl, rfl, rfl, rfl, rfl, rfl, rfl⟩
  | error e => exact Or.inr ⟨e, rfl, rfl, rfl, rfl, rfl, rfl, rfl, rfl, rfl⟩

/-- C7 (backend modelled from the spec): pausing a session that is already
"paused" fails with InvalidState and leaves the session record unchanged. -/
theorem c7_pause_on_paused_invalid_state (s : Server.Session)
    (h : s.status = "paused") :
    Server.pauseRequest s = (s, .error .invalidState) := by
  unfold Server.pauseRequest
  rw [h]
  rfl

theorem c7_pause_on_paused_invalid_state_witness :
    (Server.Session.mk "paused" 40 2 5).status = "paused" ∧
    Server.pauseRequest (Server.Session.mk "paused" 40 2 5) =
      (Server.Session.mk "paused" 40 2 5, .error .invalidState) :=
  ⟨rfl, c7_pause_on_paused_invalid_state (Server.Session.mk "paused" 40 2 5) rfl⟩

/-- C8: the download URL handleDownload opens depends only on the session
id: the selected format argument is dropped by getDownloadUrl, so "csv"
and "xlsx" (and any two formats) yield the identical URL
API_BASE_URL ++ "/download/" ++ sessionId. -/
theorem c8_download_url_ignores_format (envApiUrl : Option String)
    (sessionId fmt1 fmt2 : String) :
    App.handleDownloadUrl envApiUrl sessionId fmt1 =
      App.handleDownloadUrl envApiUrl sessionId fmt2 ∧
    App.handleDownloadUrl envApiUrl sessionId fmt1 =
      Api.apiBaseUrl envApiUrl ++ "/download/" ++ sessionId :=
  ⟨rfl, rfl⟩

/-- C9: every rejected drop makes FileUploader set uploadError to a
non-empty string (a translated message, or the i18next key itself when the
key is missing from en.js), so the error Alert renders; no rejection is
silent. -/
theorem c9_rejection_always_renders_alert (st : Uploader.UploaderState)
    (code : Option String) :
    Uploader.errorAlertRendered (Uploader.onDropRejected tEn st code) =
      true := by
  unfold Uploader.errorAlertRendered Uploader.onDropRejected
    Uploader.rejectionMessage
  dsimp only
  split <;> (try split) <;> rfl

/-- C10: after i18n initialization and after every sequence of
languageChanged events, document.documentElement.dir is "rtl" exactly when
the active language is "he", and document.documentElement.lang equals the
active language. -/
theorem c10_document_direction_invariant (doc0 : I18n.DocumentElement)
    (changes : List String) :
    I18n.docInvariant (I18n.runI18n doc0 changes) := by
  unfold I18n.runI18n
  apply i18n_invariant_foldl
  unfold I18n.initState
  exact i18n_invariant_update doc0 (jsOr "en" "en")

end PdfToXls
